import Mathlib

set_option autoImplicit false

namespace HealthCheck

/-- Result environment of one aggregation cycle: for each reporter handle, the
value returned by that call of Reporter.Check() during the cycle (health.go
lines 19-23 and 160-166): none models a nil error (healthy), some msg models a
non-nil error with message msg. -/
def CheckEnv : Type := Nat → Option String

/-- Config mirrors the Go struct Config (health.go lines 25-32 and 168-175):
a named reporter binding with its SoftFail flag. The Reporter interface value
is modelled as an abstract handle that the cycle environment maps to the
outcome of its Check() call. -/
structure Config where
  Name : String
  Reporter : Nat
  SoftFail : Bool
deriving DecidableEq

/-- Registration error of AddReporter (health.go lines 61-63 and 224-226,
fmt.Errorf reporting that the reporter name already exists). -/
structure DuplicateNameError where
  name : String
deriving DecidableEq

/-- Write to a Go map modelled as an association list: m[k] = v replaces the
value at the existing occurrence of the key, or inserts the pair. -/
def mapWrite : List (String × String) → String → String → List (String × String)
  | [], k, v => [(k, v)]
  | (k0, v0) :: t, k, v => if k0 = k then (k, v) :: t else (k0, v0) :: mapWrite t k v

/-- Read of a Go map modelled as an association list: m[k], none when absent. -/
def mapFind : List (String × String) → String → Option String
  | [], _ => none
  | (k0, v0) :: t, k => if k0 = k then some v0 else mapFind t k

/-- Collector of the first variant (health.go lines 10-16): the reporters
registry, the global health flag and the published per-name status map.
The sync.RWMutex field is a synchronization artifact with no functional
content and is not modelled. The registry map keyed by Config.Name is
modelled as the list of registered Config values in registration order. -/
structure Collector1 where
  reporters : List Config
  globalHealth : Bool
  globalHealthMsg : List (String × String)
deriving DecidableEq

/-- Interval normalization in both NewCollector variants (health.go lines
37-40 and 199-202): a zero or negative interval is replaced by the default of
10 time units. -/
def effectiveInterval (interval : Int) : Int :=
  if interval ≤ 0 then 10 else interval

/-- NewCollector of the first variant (health.go lines 36-54): empty registry,
globalHealth true, and a nil globalHealthMsg map (which reads as empty). The
background ticker goroutine only re-invokes runChecks and is modelled by
explicit runChecks1 applications. -/
def NewCollector1 (interval : Int) : Collector1 :=
  { reporters := [], globalHealth := true, globalHealthMsg := [] }

/-- AddReporter of the first variant (health.go lines 57-66): fails when the
name is already a key of the registry, otherwise inserts the config under its
name. -/
def AddReporter1 (c : Collector1) (config : Config) : Collector1 × Option DuplicateNameError :=
  if c.reporters.any (fun r => r.Name = config.Name) then
    (c, some { name := config.Name })
  else
    ({ c with reporters := c.reporters ++ [config] }, none)

/-- Body of one probe goroutine of the first runChecks (health.go lines
78-92), acting on the shared aggregation state: the unhealthy counter and the
depsHealth map. On a failing check it increments the counter when the binding
is hard (SoftFail false) and records "KO: " plus the error message; on a nil
error it records "OK: Healthy". -/
def checkStep1 (check : CheckEnv) (s : Nat × List (String × String)) (cfg : Config) :
    Nat × List (String × String) :=
  match check cfg.Reporter with
  | some e => ((if cfg.SoftFail then s.1 else s.1 + 1), mapWrite s.2 cfg.Name ("KO: " ++ e))
  | none => (s.1, mapWrite s.2 cfg.Name "OK: Healthy")

/-- runChecks of the first variant (health.go lines 69-108): starting from a
fresh empty depsHealth map and a zero unhealthy counter, every registered
binding contributes one checkStep1 effect (the per-goroutine effects
serialized in registry order; for the unique registry keys the aggregate
result is order independent), then globalHealth is recomputed as
unhealthy == 0 and both globalHealth and globalHealthMsg are replaced. -/
def runChecks1 (c : Collector1) (check : CheckEnv) : Collector1 :=
  let s := c.reporters.foldl (checkStep1 check) (0, [])
  { c with globalHealth := s.1 == 0, globalHealthMsg := s.2 }

/-- Collector of the second variant (health.go lines 179-189): global health
flag, reporters registry and the reportersData status map (updated in place
by runChecks2, never replaced wholesale). -/
structure Collector2 where
  globalHealth : Bool
  reporters : List Config
  reportersData : List (String × String)
deriving DecidableEq

/-- NewCollector of the second variant (health.go lines 192-216): empty
registry, empty reportersData, globalHealth true. The startup goroutine
(5 time unit grace sleep, one initial runChecks, then the ticker) only
re-invokes runChecks and is modelled by explicit runChecks2 applications. -/
def NewCollector2 (interval : Int) : Collector2 :=
  { globalHealth := true, reporters := [], reportersData := [] }

/-- AddReporter of the second variant (health.go lines 220-228): same
functional behaviour as the first variant, under a write lock. -/
def AddReporter2 (c : Collector2) (config : Config) : Collector2 × Option DuplicateNameError :=
  if c.reporters.any (fun r => r.Name = config.Name) then
    (c, some { name := config.Name })
  else
    ({ c with reporters := c.reporters ++ [config] }, none)

/-- Body of one probe goroutine of the second runChecks (health.go lines
238-255), acting on the shared collector fields under the mutex: on a failing
check of a hard binding it sets globalHealth to false (and never back to
true), and it writes the status string for the binding name into
reportersData. -/
def checkStep2 (check : CheckEnv) (s : Bool × List (String × String)) (cfg : Config) :
    Bool × List (String × String) :=
  match check cfg.Reporter with
  | some e => ((if cfg.SoftFail then s.1 else false), mapWrite s.2 cfg.Name ("KO: " ++ e))
  | none => (s.1, mapWrite s.2 cfg.Name "OK: Healthy")

/-- runChecks of the second variant (health.go lines 231-261): every
registered binding applies its checkStep2 effect to the current globalHealth
and the accumulated reportersData (per-goroutine effects serialized in
registry order; order independent for unique registry keys). Nothing resets
globalHealth to true and reportersData is mutated in place, not replaced. -/
def runChecks2 (c : Collector2) (check : CheckEnv) : Collector2 :=
  let s := c.reporters.foldl (checkStep2 check) (c.globalHealth, c.reportersData)
  { c with globalHealth := s.1, reportersData := s.2 }

/-- Collector states of the first variant reachable through the public
operations: construction, registration and cycles. -/
inductive Reachable1 : Collector1 → Prop where
  | new : ∀ interval, Reachable1 (NewCollector1 interval)
  | add : ∀ c cfg, Reachable1 c → Reachable1 (AddReporter1 c cfg).1
  | run : ∀ c check, Reachable1 c → Reachable1 (runChecks1 c check)

/-- Collector states of the second variant reachable through the public
operations: construction, registration and cycles. -/
inductive Reachable2 : Collector2 → Prop where
  | new : ∀ interval, Reachable2 (NewCollector2 interval)
  | add : ∀ c cfg, Reachable2 c → Reachable2 (AddReporter2 c cfg).1
  | run : ∀ c check, Reachable2 c → Reachable2 (runChecks2 c check)

/-- Example binding of the spec scenario: a hard dependency named A. -/
def cfgA : Config := { Name := "A", Reporter := 0, SoftFail := false }

/-- Example binding of the spec scenario: a soft-fail dependency named B. -/
def cfgB : Config := { Name := "B", Reporter := 1, SoftFail := true }

/-- Second example binding reusing the name A, for duplicate registration. -/
def cfgA2 : Config := { Name := "A", Reporter := 2, SoftFail := true }

/-- Cycle environment of the spec scenario: reporter 0 fails with refused,
every other reporter is healthy. -/
def checkAB : CheckEnv := fun r => if r = 0 then some "refused" else none

/-- Result environment of one cycle in a model where a Check() call may also
panic: Except.error p is a panic with message p escaping the call, Except.ok
is a normal return of the error value (none for nil). -/
def CheckEnvExc : Type := Nat → Except String (Option String)

/-- Goroutine body of the first runChecks under the panic-aware environment.
The source (health.go lines 78-92) installs no recover, so a panic escaping
Check() propagates out of the goroutine body unchanged instead of being
recorded as a failing outcome. -/
def checkStep1Exc (check : CheckEnvExc) (s : Nat × List (String × String)) (cfg : Config) :
    Except String (Nat × List (String × String)) :=
  match check cfg.Reporter with
  | Except.error p => Except.error p
  | Except.ok (some e) =>
      Except.ok ((if cfg.SoftFail then s.1 else s.1 + 1), mapWrite s.2 cfg.Name ("KO: " ++ e))
  | Except.ok none => Except.ok (s.1, mapWrite s.2 cfg.Name "OK: Healthy")

/-- First-variant runChecks under the panic-aware environment: a panic in any
probe invocation aborts the cycle (in Go it terminates the whole process,
including the background scheduling goroutine); no snapshot is published. -/
def runChecks1Exc (c : Collector1) (check : CheckEnvExc) : Except String Collector1 :=
  match c.reporters.foldlM (checkStep1Exc check) (0, []) with
  | Except.error p => Except.error p
  | Except.ok s => Except.ok { c with globalHealth := s.1 == 0, globalHealthMsg := s.2 }

/-- Goroutine body of the second runChecks under the panic-aware environment
(health.go lines 238-255, likewise without recover). -/
def checkStep2Exc (check : CheckEnvExc) (s : Bool × List (String × String)) (cfg : Config) :
    Except String (Bool × List (String × String)) :=
  match check cfg.Reporter with
  | Except.error p => Except.error p
  | Except.ok (some e) =>
      Except.ok ((if cfg.SoftFail then s.1 else false), mapWrite s.2 cfg.Name ("KO: " ++ e))
  | Except.ok none => Except.ok (s.1, mapWrite s.2 cfg.Name "OK: Healthy")

/-- Second-variant runChecks under the panic-aware environment. -/
def runChecks2Exc (c : Collector2) (check : CheckEnvExc) : Except String Collector2 :=
  match c.reporters.foldlM (checkStep2Exc check) (c.globalHealth, c.reportersData) with
  | Except.error p => Except.error p
  | Except.ok s => Except.ok { c with globalHealth := s.1, reportersData := s.2 }

/-- Binding whose Check call malfunctions (panics) in the C7 scenario. -/
def cfgP : Config := { Name := "P", Reporter := 3, SoftFail := false }

/-- Cycle environment in which every Check call panics with message boom. -/
def boomEnv : CheckEnvExc := fun _ => Except.error "boom"

/-- Read half of the shared-counter increment unhealthy++ in the first
runChecks goroutine (health.go line 85): loads the shared counter with no
synchronization. -/
def unhealthyRead (shared : Nat) : Nat := shared

/-- Write half of unhealthy++: stores the previously read value plus one,
overwriting whatever the shared counter holds at that moment. -/
def unhealthyWrite (shared tmp : Nat) : Nat := tmp + 1

/-- Interleaving of two concurrent unhealthy++ operations in which both
goroutines read the shared counter before either writes it back. -/
def racedDoubleIncrement : Nat :=
  let shared0 := 0
  let t1 := unhealthyRead shared0
  let t2 := unhealthyRead shared0
  let shared1 := unhealthyWrite shared0 t1
  let shared2 := unhealthyWrite shared1 t2
  shared2


/-- Status string recorded for one binding in one cycle (the two branches of
the goroutine bodies, health.go lines 81-90 and 241-251). -/
def statusOf (check : CheckEnv) (cfg : Config) : String :=
  match check cfg.Reporter with
  | some e => "KO: " ++ e
  | none => "OK: Healthy"

/-- A binding fails hard in a cycle: its check returns an error and it is not
soft-fail. -/
def hardFailed (check : CheckEnv) (cfg : Config) : Bool :=
  (check cfg.Reporter).isSome && !cfg.SoftFail

/-- Accumulated status-map effect of one cycle over a registry list. -/
def dataFold (check : CheckEnv) (d : List (String × String)) (l : List Config) :
    List (String × String) :=
  l.foldl (fun d cfg => mapWrite d cfg.Name (statusOf check cfg)) d

theorem mapFind_mapWrite (k v q : String) :
    ∀ d : List (String × String),
      mapFind (mapWrite d k v) q = if k = q then some v else mapFind d q := by
  intro d
  induction d with
  | nil =>
    by_cases h : k = q <;> simp [mapWrite, mapFind, h]
  | cons p t ih =>
    obtain ⟨k0, v0⟩ := p
    by_cases h0 : k0 = k
    · subst h0
      by_cases hq : k0 = q <;> simp [mapWrite, mapFind, hq]
    · by_cases hq : k0 = q
      · subst hq
        have hkq : ¬ k = k0 := fun h => h0 h.symm
        simp [mapWrite, mapFind, h0, hkq]
      · simp [mapWrite, mapFind, h0, hq, ih]

theorem mapWrite_self (k v : String) :
    ∀ d : List (String × String), mapFind d k = some v → mapWrite d k v = d := by
  intro d
  induction d with
  | nil => simp [mapFind]
  | cons p t ih =>
    obtain ⟨k0, v0⟩ := p
    by_cases h0 : k0 = k
    · subst h0
      intro hv
      have hv0 : v0 = v := by simpa [mapFind] using hv
      subst hv0
      simp [mapWrite]
    · intro hv
      have hv1 : mapFind t k = some v := by simpa [mapFind, h0] using hv
      simp [mapWrite, h0, ih hv1]

theorem foldl_checkStep1_fst (check : CheckEnv) :
    ∀ (l : List Config) (n : Nat) (d : List (String × String)),
      (List.foldl (checkStep1 check) (n, d) l).1 = n + l.countP (hardFailed check) := by
  intro l
  induction l with
  | nil => intro n d; simp
  | cons cfg t ih =>
    intro n d
    rw [List.foldl_cons, List.countP_cons]
    rcases h : check cfg.Reporter with _ | e
    · simp [checkStep1, h, hardFailed, ih]
    · by_cases hs : cfg.SoftFail
      · simp [checkStep1, h, hardFailed, hs, ih]
      · simp [checkStep1, h, hardFailed, hs, ih]
        omega

theorem foldl_checkStep1_snd (check : CheckEnv) :
    ∀ (l : List Config) (n : Nat) (d : List (String × String)),
      (List.foldl (checkStep1 check) (n, d) l).2 = dataFold check d l := by
  intro l
  induction l with
  | nil => intro n d; simp [dataFold]
  | cons cfg t ih =>
    intro n d
    rw [List.foldl_cons]
    rcases h : check cfg.Reporter with _ | e
    · simp [checkStep1, h, dataFold, statusOf, ih, List.foldl_cons]
    · simp [checkStep1, h, dataFold, statusOf, ih, List.foldl_cons]

theorem foldl_checkStep2_fst (check : CheckEnv) :
    ∀ (l : List Config) (b : Bool) (d : List (String × String)),
      (List.foldl (checkStep2 check) (b, d) l).1 = (b && !(l.any (hardFailed check))) := by
  intro l
  induction l with
  | nil => intro b d; simp
  | cons cfg t ih =>
    intro b d
    rw [List.foldl_cons, List.any_cons]
    rcases h : check cfg.Reporter with _ | e
    · simp [checkStep2, h, hardFailed, ih]
    · by_cases hs : cfg.SoftFail
      · simp [checkStep2, h, hardFailed, hs, ih]
      · simp [checkStep2, h, hardFailed, hs, ih]

theorem foldl_checkStep2_snd (check : CheckEnv) :
    ∀ (l : List Config) (b : Bool) (d : List (String × String)),
      (List.foldl (checkStep2 check) (b, d) l).2 = dataFold check d l := by
  intro l
  induction l with
  | nil => intro b d; simp [dataFold]
  | cons cfg t ih =>
    intro b d
    rw [List.foldl_cons]
    rcases h : check cfg.Reporter with _ | e
    · simp [checkStep2, h, dataFold, statusOf, ih, List.foldl_cons]
    · simp [checkStep2, h, dataFold, statusOf, ih, List.foldl_cons]

theorem runChecks1_reporters (c : Collector1) (check : CheckEnv) :
    (runChecks1 c check).reporters = c.reporters := rfl

theorem runChecks2_reporters (c : Collector2) (check : CheckEnv) :
    (runChecks2 c check).reporters = c.reporters := rfl

theorem runChecks1_health (c : Collector1) (check : CheckEnv) :
    (runChecks1 c check).globalHealth = (c.reporters.countP (hardFailed check) == 0) := by
  simp [runChecks1, foldl_checkStep1_fst]

theorem runChecks1_msg (c : Collector1) (check : CheckEnv) :
    (runChecks1 c check).globalHealthMsg = dataFold check [] c.reporters := by
  simp [runChecks1, foldl_checkStep1_snd]

theorem runChecks2_health (c : Collector2) (check : CheckEnv) :
    (runChecks2 c check).globalHealth = (c.globalHealth && !(c.reporters.any (hardFailed check))) := by
  simp [runChecks2, foldl_checkStep2_fst]

theorem runChecks2_data (c : Collector2) (check : CheckEnv) :
    (runChecks2 c check).reportersData = dataFold check c.reportersData c.reporters := by
  simp [runChecks2, foldl_checkStep2_snd]

theorem mapFind_dataFold_notMem (check : CheckEnv) (q : String) :
    ∀ (l : List Config) (d : List (String × String)), q ∉ l.map Config.Name →
      mapFind (dataFold check d l) q = mapFind d q := by
  intro l
  induction l with
  | nil => intro d _; simp [dataFold]
  | cons cfg t ih =>
    intro d hq
    rw [List.map_cons] at hq
    have h1 : cfg.Name ≠ q := fun h => hq (by simp [h])
    have h2 : q ∉ t.map Config.Name := fun h => hq (by simp [h])
    simp only [dataFold, List.foldl_cons]
    rw [show (List.foldl (fun d cfg => mapWrite d cfg.Name (statusOf check cfg))
        (mapWrite d cfg.Name (statusOf check cfg)) t) =
        dataFold check (mapWrite d cfg.Name (statusOf check cfg)) t from rfl]
    rw [ih _ h2, mapFind_mapWrite]
    simp [h1]

theorem mapFind_dataFold_isSome (check : CheckEnv) (q : String) :
    ∀ (l : List Config) (d : List (String × String)),
      ((mapFind (dataFold check d l) q).isSome = true ↔
        q ∈ l.map Config.Name ∨ (mapFind d q).isSome = true) := by
  intro l
  induction l with
  | nil => intro d; simp [dataFold]
  | cons cfg t ih =>
    intro d
    simp only [dataFold, List.foldl_cons]
    rw [show (List.foldl (fun d cfg => mapWrite d cfg.Name (statusOf check cfg))
        (mapWrite d cfg.Name (statusOf check cfg)) t) =
        dataFold check (mapWrite d cfg.Name (statusOf check cfg)) t from rfl]
    rw [ih]
    by_cases h : cfg.Name = q
    · simp [mapFind_mapWrite, h]
    · simp [mapFind_mapWrite, h]
      constructor
      · rintro (hm | hm)
        · exact Or.inl (Or.inr hm)
        · exact Or.inr hm
      · rintro ((hm | hm) | hm)
        · exact absurd hm.symm h
        · exact Or.inl hm
        · exact Or.inr hm

theorem mapFind_dataFold_mem (check : CheckEnv) :
    ∀ (l : List Config) (d : List (String × String)) (cfg : Config),
      (l.map Config.Name).Nodup → cfg ∈ l →
      mapFind (dataFold check d l) cfg.Name = some (statusOf check cfg) := by
  intro l
  induction l with
  | nil => intro d cfg _ hm; exact absurd hm (List.not_mem_nil cfg)
  | cons hd t ih =>
    intro d cfg hnd hm
    rw [List.map_cons, List.nodup_cons] at hnd
    simp only [dataFold, List.foldl_cons]
    rw [show (List.foldl (fun d cfg => mapWrite d cfg.Name (statusOf check cfg))
        (mapWrite d hd.Name (statusOf check hd)) t) =
        dataFold check (mapWrite d hd.Name (statusOf check hd)) t from rfl]
    rcases List.mem_cons.mp hm with h | h
    · subst h
      rw [mapFind_dataFold_notMem check cfg.Name t _ hnd.1, mapFind_mapWrite]
      simp
    · exact ih _ cfg hnd.2 h

theorem dataFold_id (check : CheckEnv) :
    ∀ (l : List Config) (d : List (String × String)),
      (∀ cfg ∈ l, mapFind d cfg.Name = some (statusOf check cfg)) →
      dataFold check d l = d := by
  intro l
  induction l with
  | nil => intro d _; simp [dataFold]
  | cons hd t ih =>
    intro d hall
    simp only [dataFold, List.foldl_cons]
    rw [mapWrite_self hd.Name (statusOf check hd) d (hall hd (List.mem_cons_self hd t))]
    exact ih d (fun cfg hm => hall cfg (List.mem_cons_of_mem hd hm))

theorem reachable1_nodup : ∀ c : Collector1, Reachable1 c →
    (c.reporters.map Config.Name).Nodup := by
  intro c h
  induction h with
  | new interval => simp [NewCollector1]
  | add c cfg _ ih =>
    by_cases hdup : c.reporters.any (fun r => r.Name = cfg.Name)
    · simpa [AddReporter1, hdup] using ih
    · have hnot : ∀ r ∈ c.reporters, ¬ r.Name = cfg.Name := by
        intro r hr hEq
        exact hdup (List.any_eq_true.mpr ⟨r, hr, by simp [hEq]⟩)
      have hAdd : (AddReporter1 c cfg).1 = { c with reporters := c.reporters ++ [cfg] } := by
        simp [AddReporter1, hdup]
      rw [hAdd]
      simp only [List.map_append, List.map_cons, List.map_nil]
      rw [List.nodup_append]
      refine ⟨ih, List.nodup_singleton _, ?_⟩
      intro x hx hx1
      rw [List.mem_singleton] at hx1
      obtain ⟨r, hr, hrn⟩ := List.mem_map.mp hx
      exact hnot r hr (by rw [hrn, hx1])
  | run c check _ ih => simpa [runChecks1_reporters] using ih

theorem reachable2_nodup : ∀ c : Collector2, Reachable2 c →
    (c.reporters.map Config.Name).Nodup := by
  intro c h
  induction h with
  | new interval => simp [NewCollector2]
  | add c cfg _ ih =>
    by_cases hdup : c.reporters.any (fun r => r.Name = cfg.Name)
    · simpa [AddReporter2, hdup] using ih
    · have hnot : ∀ r ∈ c.reporters, ¬ r.Name = cfg.Name := by
        intro r hr hEq
        exact hdup (List.any_eq_true.mpr ⟨r, hr, by simp [hEq]⟩)
      have hAdd : (AddReporter2 c cfg).1 = { c with reporters := c.reporters ++ [cfg] } := by
        simp [AddReporter2, hdup]
      rw [hAdd]
      simp only [List.map_append, List.map_cons, List.map_nil]
      rw [List.nodup_append]
      refine ⟨ih, List.nodup_singleton _, ?_⟩
      intro x hx hx1
      rw [List.mem_singleton] at hx1
      obtain ⟨r, hr, hrn⟩ := List.mem_map.mp hx
      exact hnot r hr (by rw [hrn, hx1])
  | run c check _ ih => simpa [runChecks2_reporters] using ih

theorem reachable2_keys_sub : ∀ c : Collector2, Reachable2 c →
    ∀ q : String, (mapFind c.reportersData q).isSome = true →
      q ∈ c.reporters.map Config.Name := by
  intro c h
  induction h with
  | new interval => intro q hq; simp [NewCollector2, mapFind] at hq
  | add c cfg _ ih =>
    intro q hq
    by_cases hdup : c.reporters.any (fun r => r.Name = cfg.Name)
    · simp only [AddReporter2, if_pos hdup] at hq ⊢
      exact ih q hq
    · simp only [AddReporter2, if_neg hdup] at hq ⊢
      rw [List.map_append]
      exact List.mem_append_left _ (ih q hq)
  | run c check _ ih =>
    intro q hq
    rw [runChecks2_data] at hq
    rw [runChecks2_reporters]
    rcases (mapFind_dataFold_isSome check q c.reporters c.reportersData).mp hq with h | h
    · exact h
    · exact ih q h

theorem hardFailed_eq_true (check : CheckEnv) (cfg : Config) :
    hardFailed check cfg = true ↔ cfg.SoftFail = false ∧ (check cfg.Reporter).isSome = true := by
  simp only [hardFailed, Bool.and_eq_true, Bool.not_eq_eq_eq_not, Bool.not_true]
  tauto


/-- C1 (amended). For the first collector variant the published verdict after
runChecks is false iff some binding with SoftFail false produced a failing
outcome in that cycle, independent of earlier cycles. For the second variant
the verdict after a cycle is false iff some hard binding failed in that cycle
or the verdict was already false entering the cycle: a cycle with no hard
failure keeps the prior verdict instead of resetting it to true. -/
theorem globalHealth_iff_hard_failure (c1 : Collector1) (c2 : Collector2) (check : CheckEnv) :
    ((runChecks1 c1 check).globalHealth = false ↔
      ∃ cfg ∈ c1.reporters, cfg.SoftFail = false ∧ (check cfg.Reporter).isSome = true) ∧
    ((runChecks2 c2 check).globalHealth = false ↔
      (c2.globalHealth = false ∨
        ∃ cfg ∈ c2.reporters, cfg.SoftFail = false ∧ (check cfg.Reporter).isSome = true)) := by
  constructor
  · rw [runChecks1_health, beq_eq_false_iff_ne, ← Nat.pos_iff_ne_zero,
      List.countP_pos_iff]
    constructor
    · rintro ⟨cfg, hm, hp⟩
      exact ⟨cfg, hm, (hardFailed_eq_true check cfg).mp hp⟩
    · rintro ⟨cfg, hm, hp⟩
      exact ⟨cfg, hm, (hardFailed_eq_true check cfg).mpr hp⟩
  · rw [runChecks2_health]
    cases hb : c2.globalHealth <;>
      simp [List.any_eq_true, hardFailed_eq_true]

/-- C1 counterexample. In the second collector variant, after a cycle in which
the hard binding A fails, a further cycle in which every check succeeds (the
environment returns none everywhere, so no hard binding fails in that cycle)
still publishes a false verdict, refuting the claimed equivalence for that
cycle. -/
theorem globalHealth_iff_hard_failure_refuted :
    ¬ ((runChecks2 (runChecks2 (AddReporter2 (NewCollector2 1) cfgA).1
          (fun _ => some "refused")) (fun _ => none)).globalHealth = false ↔
        ∃ cfg ∈ (runChecks2 (AddReporter2 (NewCollector2 1) cfgA).1
          (fun _ => some "refused")).reporters,
          cfg.SoftFail = false ∧ ((fun _ => none : CheckEnv) cfg.Reporter).isSome = true) := by
  decide

/-- C1 witness: the amended equivalence evaluated on the scenario with the
hard binding A failing with refused. -/
theorem globalHealth_iff_hard_failure_witness :
    ((runChecks1 (AddReporter1 (NewCollector1 1) cfgA).1 checkAB).globalHealth = false ↔
      ∃ cfg ∈ (AddReporter1 (NewCollector1 1) cfgA).1.reporters,
        cfg.SoftFail = false ∧ (checkAB cfg.Reporter).isSome = true) ∧
    ((runChecks2 (AddReporter2 (NewCollector2 1) cfgA).1 checkAB).globalHealth = false ↔
      ((AddReporter2 (NewCollector2 1) cfgA).1.globalHealth = false ∨
        ∃ cfg ∈ (AddReporter2 (NewCollector2 1) cfgA).1.reporters,
          cfg.SoftFail = false ∧ (checkAB cfg.Reporter).isSome = true)) :=
  globalHealth_iff_hard_failure (AddReporter1 (NewCollector1 1) cfgA).1
    (AddReporter2 (NewCollector2 1) cfgA).1 checkAB

/-- C2. In both variants, AddReporter with a fresh name succeeds and appends
exactly that binding to the registry; AddReporter with an already-registered
name returns the duplicate-name error and leaves the collector unchanged, so
after two registrations under the same name the registry holds only the first
binding. -/
theorem addReporter_duplicate (c1 : Collector1) (c2 : Collector2) (cfg cfgDup : Config) :
    ((∀ r ∈ c1.reporters, r.Name ≠ cfg.Name) →
      AddReporter1 c1 cfg = ({ c1 with reporters := c1.reporters ++ [cfg] }, none)) ∧
    ((∃ r ∈ c1.reporters, r.Name = cfg.Name) →
      AddReporter1 c1 cfg = (c1, some { name := cfg.Name })) ∧
    ((∀ r ∈ c1.reporters, r.Name ≠ cfg.Name) → cfgDup.Name = cfg.Name →
      (AddReporter1 (AddReporter1 c1 cfg).1 cfgDup).2 = some { name := cfgDup.Name } ∧
      (AddReporter1 (AddReporter1 c1 cfg).1 cfgDup).1.reporters = c1.reporters ++ [cfg]) ∧
    ((∀ r ∈ c2.reporters, r.Name ≠ cfg.Name) →
      AddReporter2 c2 cfg = ({ c2 with reporters := c2.reporters ++ [cfg] }, none)) ∧
    ((∃ r ∈ c2.reporters, r.Name = cfg.Name) →
      AddReporter2 c2 cfg = (c2, some { name := cfg.Name })) ∧
    ((∀ r ∈ c2.reporters, r.Name ≠ cfg.Name) → cfgDup.Name = cfg.Name →
      (AddReporter2 (AddReporter2 c2 cfg).1 cfgDup).2 = some { name := cfgDup.Name } ∧
      (AddReporter2 (AddReporter2 c2 cfg).1 cfgDup).1.reporters = c2.reporters ++ [cfg]) := by
  have hfresh1 : (∀ r ∈ c1.reporters, r.Name ≠ cfg.Name) →
      AddReporter1 c1 cfg = ({ c1 with reporters := c1.reporters ++ [cfg] }, none) := by
    intro h
    have hany : (c1.reporters.any fun r => r.Name = cfg.Name) = false := by
      rw [List.any_eq_false]
      intro r hr
      simpa using h r hr
    simp [AddReporter1, hany]
  have hfresh2 : (∀ r ∈ c2.reporters, r.Name ≠ cfg.Name) →
      AddReporter2 c2 cfg = ({ c2 with reporters := c2.reporters ++ [cfg] }, none) := by
    intro h
    have hany : (c2.reporters.any fun r => r.Name = cfg.Name) = false := by
      rw [List.any_eq_false]
      intro r hr
      simpa using h r hr
    simp [AddReporter2, hany]
  refine ⟨hfresh1, ?_, ?_, hfresh2, ?_, ?_⟩
  · rintro ⟨r, hr, hrn⟩
    have hany : (c1.reporters.any fun r => r.Name = cfg.Name) = true :=
      List.any_eq_true.mpr ⟨r, hr, by simp [hrn]⟩
    simp [AddReporter1, hany]
  · intro h hdup
    rw [hfresh1 h]
    have hany : ((c1.reporters ++ [cfg]).any fun r => r.Name = cfgDup.Name) = true :=
      List.any_eq_true.mpr ⟨cfg, by simp, by simp [hdup]⟩
    constructor <;> simp [AddReporter1, hany]
  · rintro ⟨r, hr, hrn⟩
    have hany : (c2.reporters.any fun r => r.Name = cfg.Name) = true :=
      List.any_eq_true.mpr ⟨r, hr, by simp [hrn]⟩
    simp [AddReporter2, hany]
  · intro h hdup
    rw [hfresh2 h]
    have hany : ((c2.reporters ++ [cfg]).any fun r => r.Name = cfgDup.Name) = true :=
      List.any_eq_true.mpr ⟨cfg, by simp, by simp [hdup]⟩
    constructor <;> simp [AddReporter2, hany]

/-- C2 witness: duplicate registration of the name A on fresh collectors of
both variants. -/
theorem addReporter_duplicate_witness :
    (AddReporter1 (AddReporter1 (NewCollector1 1) cfgA).1 cfgA2).2 = some { name := "A" } ∧
    (AddReporter1 (AddReporter1 (NewCollector1 1) cfgA).1 cfgA2).1.reporters = [cfgA] ∧
    (AddReporter2 (AddReporter2 (NewCollector2 1) cfgA).1 cfgA2).2 = some { name := "A" } ∧
    (AddReporter2 (AddReporter2 (NewCollector2 1) cfgA).1 cfgA2).1.reporters = [cfgA] := by
  obtain ⟨h1, h2, h3, h4, h5, h6⟩ :=
    addReporter_duplicate (NewCollector1 1) (NewCollector2 1) cfgA cfgA2
  obtain ⟨h3a, h3b⟩ := h3 (by intro r hr; simp [NewCollector1] at hr) (by decide)
  obtain ⟨h6a, h6b⟩ := h6 (by intro r hr; simp [NewCollector2] at hr) (by decide)
  exact ⟨h3a, by simpa [NewCollector1] using h3b, h6a, by simpa [NewCollector2] using h6b⟩

/-- C5. Both NewCollector variants return a collector with an empty registry,
verdict true and an empty status map, for every interval argument; a zero or
negative interval is replaced by the default of 10 time units; and a cycle on
a collector with no registered bindings publishes verdict true and an empty
status map (it leaves the fresh collector unchanged). -/
theorem newCollector_initial (interval : Int) (check : CheckEnv) :
    (interval ≤ 0 → effectiveInterval interval = 10) ∧
    (0 < interval → effectiveInterval interval = interval) ∧
    (NewCollector1 interval).reporters = [] ∧
    (NewCollector1 interval).globalHealth = true ∧
    (NewCollector1 interval).globalHealthMsg = [] ∧
    runChecks1 (NewCollector1 interval) check = NewCollector1 interval ∧
    (NewCollector2 interval).reporters = [] ∧
    (NewCollector2 interval).globalHealth = true ∧
    (NewCollector2 interval).reportersData = [] ∧
    runChecks2 (NewCollector2 interval) check = NewCollector2 interval := by
  refine ⟨?_, ?_, rfl, rfl, rfl, rfl, rfl, rfl, rfl, rfl⟩
  · intro h
    simp [effectiveInterval, h]
  · intro h
    simp [effectiveInterval, not_le.mpr h]

/-- C5 witness: the defaulting and the empty-registry cycle evaluated at the
intervals -1 and 7. -/
theorem newCollector_initial_witness :
    effectiveInterval (-1) = 10 ∧ effectiveInterval 7 = 7 ∧
    runChecks1 (NewCollector1 (-1)) checkAB = NewCollector1 (-1) ∧
    runChecks2 (NewCollector2 (-1)) checkAB = NewCollector2 (-1) := by
  obtain ⟨ha, _, _, _, _, hr1, _, _, _, hr2⟩ := newCollector_initial (-1) checkAB
  obtain ⟨_, hb, _⟩ := newCollector_initial 7 checkAB
  exact ⟨ha (by norm_num), hb (by norm_num), hr1, hr2⟩

/-- C3. In both variants, the key set of the status map published by a cycle
is exactly the set of names registered before the cycle began: for the first
variant unconditionally (the map is rebuilt from scratch), for the second
variant for every reachable collector (its accumulated map never holds a key
outside the append-only registry). -/
theorem statuses_keys_eq_registry (c1 : Collector1) (c2 : Collector2) (check : CheckEnv) :
    (∀ q : String, ((mapFind (runChecks1 c1 check).globalHealthMsg q).isSome = true ↔
      q ∈ c1.reporters.map Config.Name)) ∧
    (Reachable2 c2 → ∀ q : String,
      ((mapFind (runChecks2 c2 check).reportersData q).isSome = true ↔
        q ∈ c2.reporters.map Config.Name)) := by
  constructor
  · intro q
    rw [runChecks1_msg, mapFind_dataFold_isSome]
    simp [mapFind]
  · intro hreach q
    rw [runChecks2_data, mapFind_dataFold_isSome]
    constructor
    · rintro (h | h)
      · exact h
      · exact reachable2_keys_sub c2 hreach q h
    · exact Or.inl

/-- C3 witness: key set of the cycle on collectors holding exactly the
binding A. -/
theorem statuses_keys_eq_registry_witness :
    ((mapFind (runChecks1 (AddReporter1 (NewCollector1 1) cfgA).1 checkAB).globalHealthMsg
        "A").isSome = true ↔
      "A" ∈ (AddReporter1 (NewCollector1 1) cfgA).1.reporters.map Config.Name) ∧
    ((mapFind (runChecks2 (AddReporter2 (NewCollector2 1) cfgA).1 checkAB).reportersData
        "A").isSome = true ↔
      "A" ∈ (AddReporter2 (NewCollector2 1) cfgA).1.reporters.map Config.Name) :=
  ⟨(statuses_keys_eq_registry (AddReporter1 (NewCollector1 1) cfgA).1
      (AddReporter2 (NewCollector2 1) cfgA).1 checkAB).1 "A",
   (statuses_keys_eq_registry (AddReporter1 (NewCollector1 1) cfgA).1
      (AddReporter2 (NewCollector2 1) cfgA).1 checkAB).2
      (Reachable2.add _ cfgA (Reachable2.new 1)) "A"⟩

/-- C4. For every binding of the cycle registry of a reachable collector, the
status recorded under its name by that cycle is exactly OK: Healthy when its
check returns nil and exactly KO: followed by the reported message when it
fails, in both variants. -/
theorem status_string_per_binding (c1 : Collector1) (c2 : Collector2) (check : CheckEnv)
    (cfg : Config) :
    (Reachable1 c1 → cfg ∈ c1.reporters →
      mapFind (runChecks1 c1 check).globalHealthMsg cfg.Name =
        some (match check cfg.Reporter with
          | some e => "KO: " ++ e
          | none => "OK: Healthy")) ∧
    (Reachable2 c2 → cfg ∈ c2.reporters →
      mapFind (runChecks2 c2 check).reportersData cfg.Name =
        some (match check cfg.Reporter with
          | some e => "KO: " ++ e
          | none => "OK: Healthy")) := by
  constructor
  · intro hreach hm
    rw [runChecks1_msg,
      mapFind_dataFold_mem check c1.reporters [] cfg (reachable1_nodup c1 hreach) hm]
    rfl
  · intro hreach hm
    rw [runChecks2_data,
      mapFind_dataFold_mem check c2.reporters c2.reportersData cfg
        (reachable2_nodup c2 hreach) hm]
    rfl

/-- C4 witness: the spec scenario with the hard binding A failing with
refused and the soft binding B succeeding yields statuses KO: refused for A
and OK: Healthy for B, with verdict false, in both variants. -/
theorem status_string_per_binding_witness :
    mapFind (runChecks1 (AddReporter1 (AddReporter1 (NewCollector1 1) cfgA).1 cfgB).1
      checkAB).globalHealthMsg "A" = some "KO: refused" ∧
    mapFind (runChecks1 (AddReporter1 (AddReporter1 (NewCollector1 1) cfgA).1 cfgB).1
      checkAB).globalHealthMsg "B" = some "OK: Healthy" ∧
    (runChecks1 (AddReporter1 (AddReporter1 (NewCollector1 1) cfgA).1 cfgB).1
      checkAB).globalHealth = false ∧
    mapFind (runChecks2 (AddReporter2 (AddReporter2 (NewCollector2 1) cfgA).1 cfgB).1
      checkAB).reportersData "A" = some "KO: refused" ∧
    mapFind (runChecks2 (AddReporter2 (AddReporter2 (NewCollector2 1) cfgA).1 cfgB).1
      checkAB).reportersData "B" = some "OK: Healthy" ∧
    (runChecks2 (AddReporter2 (AddReporter2 (NewCollector2 1) cfgA).1 cfgB).1
      checkAB).globalHealth = false := by
  have r1 : Reachable1 (AddReporter1 (AddReporter1 (NewCollector1 1) cfgA).1 cfgB).1 :=
    Reachable1.add _ cfgB (Reachable1.add _ cfgA (Reachable1.new 1))
  have r2 : Reachable2 (AddReporter2 (AddReporter2 (NewCollector2 1) cfgA).1 cfgB).1 :=
    Reachable2.add _ cfgB (Reachable2.add _ cfgA (Reachable2.new 1))
  refine ⟨?_, ?_, by decide, ?_, ?_, by decide⟩
  · exact (status_string_per_binding (AddReporter1 (AddReporter1 (NewCollector1 1) cfgA).1 cfgB).1
      (AddReporter2 (AddReporter2 (NewCollector2 1) cfgA).1 cfgB).1 checkAB cfgA).1 r1 (by decide)
  · exact (status_string_per_binding (AddReporter1 (AddReporter1 (NewCollector1 1) cfgA).1 cfgB).1
      (AddReporter2 (AddReporter2 (NewCollector2 1) cfgA).1 cfgB).1 checkAB cfgB).1 r1 (by decide)
  · exact (status_string_per_binding (AddReporter1 (AddReporter1 (NewCollector1 1) cfgA).1 cfgB).1
      (AddReporter2 (AddReporter2 (NewCollector2 1) cfgA).1 cfgB).1 checkAB cfgA).2 r2 (by decide)
  · exact (status_string_per_binding (AddReporter1 (AddReporter1 (NewCollector1 1) cfgA).1 cfgB).1
      (AddReporter2 (AddReporter2 (NewCollector2 1) cfgA).1 cfgB).1 checkAB cfgB).2 r2 (by decide)

/-- C6. Running a cycle twice with the same registry and a deterministic
check environment publishes identical status maps: unconditionally for the
first variant, and for every reachable collector of the second variant. -/
theorem cycle_idempotent_statuses (c1 : Collector1) (c2 : Collector2) (check : CheckEnv) :
    ((runChecks1 (runChecks1 c1 check) check).globalHealthMsg =
      (runChecks1 c1 check).globalHealthMsg) ∧
    (Reachable2 c2 →
      (runChecks2 (runChecks2 c2 check) check).reportersData =
        (runChecks2 c2 check).reportersData) := by
  constructor
  · rw [runChecks1_msg, runChecks1_msg, runChecks1_reporters]
  · intro hreach
    rw [runChecks2_data (runChecks2 c2 check) check, runChecks2_reporters]
    apply dataFold_id
    intro cfg hm
    rw [runChecks2_data]
    exact mapFind_dataFold_mem check c2.reporters c2.reportersData cfg
      (reachable2_nodup c2 hreach) hm

/-- C6 witness: double cycle on the scenario collectors holding A and B. -/
theorem cycle_idempotent_statuses_witness :
    ((runChecks1 (runChecks1 (AddReporter1 (AddReporter1 (NewCollector1 1) cfgA).1 cfgB).1
        checkAB) checkAB).globalHealthMsg =
      (runChecks1 (AddReporter1 (AddReporter1 (NewCollector1 1) cfgA).1 cfgB).1
        checkAB).globalHealthMsg) ∧
    ((runChecks2 (runChecks2 (AddReporter2 (AddReporter2 (NewCollector2 1) cfgA).1 cfgB).1
        checkAB) checkAB).reportersData =
      (runChecks2 (AddReporter2 (AddReporter2 (NewCollector2 1) cfgA).1 cfgB).1
        checkAB).reportersData) :=
  ⟨(cycle_idempotent_statuses (AddReporter1 (AddReporter1 (NewCollector1 1) cfgA).1 cfgB).1
      (AddReporter2 (AddReporter2 (NewCollector2 1) cfgA).1 cfgB).1 checkAB).1,
   (cycle_idempotent_statuses (AddReporter1 (AddReporter1 (NewCollector1 1) cfgA).1 cfgB).1
      (AddReporter2 (AddReporter2 (NewCollector2 1) cfgA).1 cfgB).1 checkAB).2
      (Reachable2.add _ cfgB (Reachable2.add _ cfgA (Reachable2.new 1)))⟩

theorem foldl_runChecks2_false (l : List CheckEnv) :
    ∀ c : Collector2, c.globalHealth = false → (l.foldl runChecks2 c).globalHealth = false := by
  induction l with
  | nil => intro c h; simpa using h
  | cons e t ih =>
    intro c h
    rw [List.foldl_cons]
    apply ih
    rw [runChecks2_health, h]
    simp

/-- C9. In the second variant, runChecks never sets the verdict back to true:
a true verdict after a cycle implies it was true before, the verdict is true
at construction, and once a cycle sees a hard (SoftFail false) binding fail,
the verdict is false after that cycle and after every later sequence of
cycles, whatever their outcomes. -/
theorem globalHealth_sticky_false (c : Collector2) (check : CheckEnv)
    (futureChecks : List CheckEnv) (interval : Int) :
    ((runChecks2 c check).globalHealth = true → c.globalHealth = true) ∧
    (NewCollector2 interval).globalHealth = true ∧
    ((∃ cfg ∈ c.reporters, cfg.SoftFail = false ∧ (check cfg.Reporter).isSome = true) →
      (futureChecks.foldl runChecks2 (runChecks2 c check)).globalHealth = false) := by
  refine ⟨?_, rfl, ?_⟩
  · rw [runChecks2_health]
    intro h
    rw [Bool.and_eq_true] at h
    exact h.1
  · rintro ⟨cfg, hm, hs, hf⟩
    apply foldl_runChecks2_false
    rw [runChecks2_health]
    have hany : c.reporters.any (hardFailed check) = true :=
      List.any_eq_true.mpr ⟨cfg, hm, (hardFailed_eq_true check cfg).mpr ⟨hs, hf⟩⟩
    simp [hany]

/-- C9 witness: after the hard binding A fails once, two further all-healthy
cycles still publish a false verdict. -/
theorem globalHealth_sticky_false_witness :
    (([fun _ => none, fun _ => none] : List CheckEnv).foldl runChecks2
      (runChecks2 (AddReporter2 (NewCollector2 1) cfgA).1 checkAB)).globalHealth = false :=
  (globalHealth_sticky_false (AddReporter2 (NewCollector2 1) cfgA).1 checkAB
    [fun _ => none, fun _ => none] 1).2.2 ⟨cfgA, by decide, by decide, by decide⟩

/-- C10. In both variants AddReporter returns an error iff the name is
already registered, with no other validation: a binding with the empty string
as name is accepted on a fresh collector and, after the next cycle, the empty
string is a key of the published status map. -/
theorem addReporter_error_iff_duplicate (c1 : Collector1) (c2 : Collector2) (cfg : Config) :
    ((AddReporter1 c1 cfg).2.isSome = true ↔ cfg.Name ∈ c1.reporters.map Config.Name) ∧
    ((AddReporter2 c2 cfg).2.isSome = true ↔ cfg.Name ∈ c2.reporters.map Config.Name) ∧
    (AddReporter1 (NewCollector1 1) { Name := "", Reporter := 9, SoftFail := true }).2
      = none ∧
    mapFind (runChecks1 (AddReporter1 (NewCollector1 1)
        { Name := "", Reporter := 9, SoftFail := true }).1 (fun _ => none)).globalHealthMsg ""
      = some "OK: Healthy" ∧
    (AddReporter2 (NewCollector2 1) { Name := "", Reporter := 9, SoftFail := true }).2
      = none ∧
    mapFind (runChecks2 (AddReporter2 (NewCollector2 1)
        { Name := "", Reporter := 9, SoftFail := true }).1 (fun _ => none)).reportersData ""
      = some "OK: Healthy" := by
  refine ⟨?_, ?_, by decide, by decide, by decide, by decide⟩
  · by_cases h : (c1.reporters.any fun r => r.Name = cfg.Name) = true
    · simp only [AddReporter1, if_pos h, Option.isSome_some, true_iff]
      obtain ⟨r, hr, hrn⟩ := List.any_eq_true.mp h
      exact List.mem_map.mpr ⟨r, hr, by simpa using hrn⟩
    · simp only [AddReporter1, if_neg h, Option.isSome_none, Bool.false_eq_true, false_iff]
      intro hmem
      obtain ⟨r, hr, hrn⟩ := List.mem_map.mp hmem
      exact h (List.any_eq_true.mpr ⟨r, hr, by simp [hrn]⟩)
  · by_cases h : (c2.reporters.any fun r => r.Name = cfg.Name) = true
    · simp only [AddReporter2, if_pos h, Option.isSome_some, true_iff]
      obtain ⟨r, hr, hrn⟩ := List.any_eq_true.mp h
      exact List.mem_map.mpr ⟨r, hr, by simpa using hrn⟩
    · simp only [AddReporter2, if_neg h, Option.isSome_none, Bool.false_eq_true, false_iff]
      intro hmem
      obtain ⟨r, hr, hrn⟩ := List.mem_map.mp hmem
      exact h (List.any_eq_true.mpr ⟨r, hr, by simp [hrn]⟩)


theorem foldlM_checkStep1Exc_ok (check : CheckEnv) :
    ∀ (l : List Config) (s : Nat × List (String × String)),
      l.foldlM (checkStep1Exc (fun r => Except.ok (check r))) s =
        Except.ok (l.foldl (checkStep1 check) s) := by
  intro l
  induction l with
  | nil => intro s; rfl
  | cons cfg t ih =>
    intro s
    rcases h : check cfg.Reporter with _ | e <;>
      simp only [List.foldlM_cons, List.foldl_cons, checkStep1Exc, checkStep1, h, ih] <;> rfl

theorem foldlM_checkStep2Exc_ok (check : CheckEnv) :
    ∀ (l : List Config) (s : Bool × List (String × String)),
      l.foldlM (checkStep2Exc (fun r => Except.ok (check r))) s =
        Except.ok (l.foldl (checkStep2 check) s) := by
  intro l
  induction l with
  | nil => intro s; rfl
  | cons cfg t ih =>
    intro s
    rcases h : check cfg.Reporter with _ | e <;>
      simp only [List.foldlM_cons, List.foldl_cons, checkStep2Exc, checkStep2, h, ih] <;> rfl

/-- C7 (evaluated at the failing input). A probe whose Check call returns an
error value is converted into a failing KO outcome and never aborts the cycle
(the panic-aware run agrees with the total one whenever no probe panics); but
a probe whose Check call panics is not caught at the invocation boundary in
either variant: the panic escapes runChecks instead of being recorded as a
failing outcome, contradicting the claim. -/
theorem probe_panic_escapes_runChecks :
    runChecks1Exc (AddReporter1 (NewCollector1 1) cfgP).1 boomEnv = Except.error "boom" ∧
    runChecks2Exc (AddReporter2 (NewCollector2 1) cfgP).1 boomEnv = Except.error "boom" ∧
    (∀ (c1 : Collector1) (c2 : Collector2) (check : CheckEnv),
      runChecks1Exc c1 (fun r => Except.ok (check r)) = Except.ok (runChecks1 c1 check) ∧
      runChecks2Exc c2 (fun r => Except.ok (check r)) = Except.ok (runChecks2 c2 check)) := by
  refine ⟨by rfl, by rfl, ?_⟩
  intro c1 c2 check
  constructor
  · simp only [runChecks1Exc, foldlM_checkStep1Exc_ok, runChecks1]
  · simp only [runChecks2Exc, foldlM_checkStep2Exc_ok, runChecks2]


/-- C8 (evaluated at the failing input). The claim that probe invocation
units keep their outcomes private and that only the orchestrator writes the
aggregation state after the fan-in barrier fails on the code: in both
variants the goroutine body itself mutates the shared aggregation state (the
unhealthy counter and depsHealth map of the first variant, the globalHealth
flag and reportersData map of the second) when the hard binding A fails with
refused, and the unsynchronized first-variant increment can lose an update
under interleaving (two concurrent increments yielding 1, not 2). -/
theorem goroutine_writes_shared_aggregation :
    checkStep1 checkAB (0, []) cfgA = (1, [("A", "KO: refused")]) ∧
    checkStep1 checkAB (0, []) cfgA ≠ (0, []) ∧
    checkStep2 checkAB (true, []) cfgA = (false, [("A", "KO: refused")]) ∧
    checkStep2 checkAB (true, []) cfgA ≠ (true, []) ∧
    racedDoubleIncrement = 1 ∧ racedDoubleIncrement ≠ 2 := by decide

/-- C10 witness: the error-iff-duplicate equivalences evaluated on fresh
collectors of both variants with the binding A. -/
theorem addReporter_error_iff_duplicate_witness :
    ((AddReporter1 (NewCollector1 1) cfgA).2.isSome = true ↔
      cfgA.Name ∈ (NewCollector1 1).reporters.map Config.Name) ∧
    ((AddReporter2 (NewCollector2 1) cfgA).2.isSome = true ↔
      cfgA.Name ∈ (NewCollector2 1).reporters.map Config.Name) :=
  ⟨(addReporter_error_iff_duplicate (NewCollector1 1) (NewCollector2 1) cfgA).1,
   (addReporter_error_iff_duplicate (NewCollector1 1) (NewCollector2 1) cfgA).2.1⟩

end HealthCheck
